import Mathlib

/-!
Shallow embedding of the gr-kiwisdr streaming block (`src/lib/kiwisdr_impl.h`)
and of the components its specification describes (StatusRegistry, RxParameters,
ReceiverClient sample queue, ReceiverClient.stop).

The only code of the repository available is the header `kiwisdr_impl.h`:
the bodies of the twelve status accessors (lines 61-72) are real code and are
embedded from source; `general_work`, `start`, `stop` and `set_rx_parameters`
are declarations only, so the corresponding operations are modelled from the
spec (their doc comments say so explicitly).

Error values: `std::map::at` on a missing key throws `std::out_of_range`,
which the spec names `MissingKey`; `std::stoi`/`std::stod` throw
`std::invalid_argument` when no conversion is possible, which the spec names
`FormatError`.
-/

namespace GrKiwisdr

inductive KiwiError where
  | MissingKey
  | FormatError
  | OutOfRange
  | InvalidRange
  | NotConnected
deriving DecidableEq, Repr

/-- The status registry `_msg : std::map<std::string, std::string>` of
`kiwisdr_impl`, modelled as an association list (keys unique by map semantics;
only `lookup` is used). -/
abbrev Registry := List (String × String)

/-- Embeds `_msg.at(k)`: the value stored under `k`, or `MissingKey`
(`std::out_of_range`) when the key is absent. -/
def regGet (m : Registry) (k : String) : Except KiwiError String :=
  match m.lookup k with
  | some v => .ok v
  | none => .error .MissingKey

/-- Decimal value of a list of digit characters, most significant first
(the accumulation performed by `std::stoi` over the digit span). -/
def digitsVal (cs : List Char) : Nat :=
  cs.foldl (fun a c => 10 * a + (c.toNat - 48)) 0

/-- Strip an optional leading sign character, as `std::stoi`/`std::stod` do
after skipping whitespace. -/
def signSpan (cs : List Char) : List Char :=
  if cs.head? = some '-' ∨ cs.head? = some '+' then cs.tail else cs

/-- The longest run of decimal digits that `std::stoi` converts: the digit
span after leading whitespace and an optional sign. `std::stoi` succeeds
exactly when this span is nonempty. -/
def numericSpan (s : String) : List Char :=
  (signSpan (s.data.dropWhile Char.isWhitespace)).takeWhile Char.isDigit

/-- The signed value of the digit span that `std::stoi` converts, before its
range check. -/
def stoiVal (s : String) : Int :=
  if (s.data.dropWhile Char.isWhitespace).head? = some '-' then
    -(digitsVal (numericSpan s) : Int)
  else (digitsVal (numericSpan s) : Int)

/-- Embeds `std::stoi(s)` (base 10): skip leading whitespace, consume an
optional sign, then the longest run of decimal digits; `std::invalid_argument`
(= `FormatError`) when that run is empty, and `std::out_of_range`
(= `OutOfRange`) when the converted value does not fit in `int`
(32 bits on the platforms this GNU Radio block targets:
-2147483648 .. 2147483647). -/
def stoi (s : String) : Except KiwiError Int :=
  if (numericSpan s).isEmpty then .error .FormatError
  else if stoiVal s < -2147483648 ∨ 2147483647 < stoiVal s then .error .OutOfRange
  else .ok (stoiVal s)

/-- Embeds `std::stod(s)` on the decimal grammar used by the protocol values
(optional sign, integer digits, optional fraction after a dot; the exponent
and hexadecimal forms of `std::stod`, unused by these values, are omitted).
The result is the exact rational value of the decimal literal;
`std::invalid_argument` (= `FormatError`) when no digit is consumed. -/
def stod (s : String) : Except KiwiError ℚ :=
  let cs := s.data.dropWhile Char.isWhitespace
  let neg : Bool := cs.head? = some '-'
  let cs2 := signSpan cs
  let intPart := cs2.takeWhile Char.isDigit
  let cs3 := cs2.dropWhile Char.isDigit
  let fracPart := if cs3.head? = some '.' then cs3.tail.takeWhile Char.isDigit else []
  if intPart.isEmpty ∧ fracPart.isEmpty then .error .FormatError
  else
    let mag : ℚ := (digitsVal intPart : ℚ) + (digitsVal fracPart : ℚ) / (10 : ℚ) ^ fracPart.length
    .ok (if neg then -mag else mag)

/-- Embeds `get_client_public_ip`: `return _msg.at("client_public_ip");`. -/
def get_client_public_ip (m : Registry) : Except KiwiError String :=
  regGet m "client_public_ip"

/-- Embeds `get_rx_chans`: `return std::stoi(_msg.at("rx_chans"));`. -/
def get_rx_chans (m : Registry) : Except KiwiError Int :=
  (regGet m "rx_chans").bind stoi

/-- Embeds `get_chan_no_pwd`: `return std::stoi(_msg.at("chan_no_pwd"));`. -/
def get_chan_no_pwd (m : Registry) : Except KiwiError Int :=
  (regGet m "chan_no_pwd").bind stoi

/-- Embeds `is_password_ok`: `return _msg.at("badp") == "0";`. -/
def is_password_ok (m : Registry) : Except KiwiError Bool :=
  (regGet m "badp").bind fun v => .ok (v == "0")

/-- Embeds `get_version`:
`return _msg.at("version_maj")+"."+_msg.at("version_min");`. -/
def get_version (m : Registry) : Except KiwiError String :=
  (regGet m "version_maj").bind fun a =>
    (regGet m "version_min").bind fun b => .ok (a ++ "." ++ b)

/-- Embeds `get_cfg`: `return _msg.at("load_cfg");`. -/
def get_cfg (m : Registry) : Except KiwiError String :=
  regGet m "load_cfg"

/-- Embeds `get_audio_rate`: `return std::stod(_msg.at("audio_rate"));`. -/
def get_audio_rate (m : Registry) : Except KiwiError ℚ :=
  (regGet m "audio_rate").bind stod

/-- Embeds `get_sample_rate`: `return std::stod(_msg.at("sample_rate"));`. -/
def get_sample_rate (m : Registry) : Except KiwiError ℚ :=
  (regGet m "sample_rate").bind stod

/-- Embeds `is_audio_initialized`: `return _msg.at("audio_init") == "1";`. -/
def is_audio_initialized (m : Registry) : Except KiwiError Bool :=
  (regGet m "audio_init").bind fun v => .ok (v == "1")

/-- Embeds `get_center_freq`: `return std::stod(_msg.at("center_freq"));`. -/
def get_center_freq (m : Registry) : Except KiwiError ℚ :=
  (regGet m "center_freq").bind stod

/-- Embeds `get_bandwidth`: `return std::stod(_msg.at("bandwidth"));`. -/
def get_bandwidth (m : Registry) : Except KiwiError ℚ :=
  (regGet m "bandwidth").bind stod

/-- Embeds `get_adc_clk_nom`: `return std::stod(_msg.at("adc_clk_nom"));`. -/
def get_adc_clk_nom (m : Registry) : Except KiwiError ℚ :=
  (regGet m "adc_clk_nom").bind stod

/-- Modelled from the spec: the RxParameters triple (`kiwi_rx_parameters`,
whose header is not in the sources) — center frequency (kHz, double, modelled
as an exact rational), low-cut and high-cut passband edges (Hz, int). -/
structure RxParams where
  freq_kHz : ℚ
  low_cut_Hz : Int
  high_cut_Hz : Int
deriving DecidableEq, Repr

/-- Modelled from the spec: the serialized tuning/passband command payload
returned by `RxParameters.set`. -/
def serializeCmd (freq : ℚ) (low high : Int) : String :=
  "SET low_cut=" ++ toString low ++ " high_cut=" ++ toString high
    ++ " freq=" ++ toString freq

/-- Modelled from the spec: `RxParameters.set(freq_kHz, low_cut_Hz,
high_cut_Hz)` — validates `low_cut < high_cut` (fails `InvalidRange`
otherwise); stores the triple; returns the serialized command payload.
Missing from `src/`: only the include of `kiwi_rx_parameters.h` is visible. -/
def RxParameters.set (freq : ℚ) (low high : Int) :
    Except KiwiError (RxParams × String) :=
  if low < high then
    .ok ({ freq_kHz := freq, low_cut_Hz := low, high_cut_Hz := high },
         serializeCmd freq low high)
  else .error .InvalidRange

/-- Modelled from the spec: `current()` — the last validated triple. -/
def current (p : RxParams) : ℚ × Int × Int :=
  (p.freq_kHz, p.low_cut_Hz, p.high_cut_Hz)

/-- Modelled from the spec: `kiwisdr_impl::set_rx_parameters` (declared at
`kiwisdr_impl.h:75`, body missing from `src/`) — delegates to
`RxParameters.set`; on success the new triple replaces the stored
`_rx_parameters` and the command payload is sent; on `InvalidRange` the
stored triple is left unchanged and nothing is sent (`Except.error` carries
no payload). -/
def set_rx_parameters (st : RxParams) (freq : ℚ) (low high : Int) :
    RxParams × Except KiwiError String :=
  match RxParameters.set freq low high with
  | .ok (st2, cmd) => (st2, .ok cmd)
  | .error e => (st, .error e)

/-- Modelled from the spec: the bounded thread-safe sample queue of
`ReceiverClient` (`kiwi_ws_client`, whose header is not in the sources).
`buf` holds the decoded samples in FIFO order, `dropped` counts frames
discarded by the drop-oldest backpressure policy. -/
structure ClientQueue where
  buf : List Int
  dropped : Nat
deriving DecidableEq, Repr

/-- Modelled from the spec: the empty queue at connection start. -/
def emptyQueue : ClientQueue :=
  { buf := [], dropped := 0 }

/-- Modelled from the spec: the receive loop enqueues one decoded sample into
the bounded queue of capacity `cap`; when the queue is full the oldest
undelivered sample is discarded and the dropped counter incremented. -/
def push_sample (cap : Nat) (q : ClientQueue) (x : Int) : ClientQueue :=
  if q.buf.length < cap then { q with buf := q.buf ++ [x] }
  else { buf := q.buf.drop 1 ++ [x], dropped := q.dropped + 1 }

/-- Modelled from the spec: the receive loop enqueues a decoded sequence of
samples in decode order. -/
def pushAll (cap : Nat) (q : ClientQueue) (xs : List Int) : ClientQueue :=
  xs.foldl (push_sample cap) q

/-- Modelled from the spec: `ReceiverClient.pop_samples(max_count)` —
non-blocking; removes and returns up to `max_count` buffered samples, fewer
if the queue has less available, zero (not an error) if nothing is ready. -/
def pop_samples (q : ClientQueue) (max_count : Nat) : List Int × ClientQueue :=
  (q.buf.take max_count, { q with buf := q.buf.drop max_count })

/-- Modelled from the spec: the pull operation
`produce(output_buffer, max_items)` (`kiwisdr_impl::general_work`, declared at
`kiwisdr_impl.h:53`, body missing from `src/`) — calls
`pop_samples(max_items)`, copies the returned samples into the output buffer
and returns them; the returned count is the length of the copied list, and
the return type has no error alternative (an empty result is not an error). -/
def produce (q : ClientQueue) (max_items : Nat) : List Int × ClientQueue :=
  pop_samples q max_items

/-- Sequence of `produce` calls with request sizes `ns`, concatenating the
samples delivered to the caller in call order. -/
def drain (q : ClientQueue) : List Nat → List Int
  | [] => []
  | n :: ns => (produce q n).1 ++ drain (produce q n).2 ns

/-- The connection state machine of `ReceiverClient` as the spec defines it. -/
inductive ConnectionState where
  | Disconnected
  | Handshaking
  | Streaming
  | Closing
  | Failed
deriving DecidableEq, Repr

/-- Modelled from the spec: the parts of `ReceiverClient` state touched by
`stop()` — connection state, cooperative cancellation flag, transport, and
whether the receive-loop thread is running. -/
structure ReceiverClient where
  connState : ConnectionState
  stopFlag : Bool
  transportOpen : Bool
  loopRunning : Bool
deriving DecidableEq, Repr

/-- Modelled from the spec: `ReceiverClient.stop()` (`kiwi_ws_client`, not in
the sources) — sets the cooperative cancellation flag, closes the transport,
joins the receive loop, transitions to Disconnected; idempotent. -/
def ReceiverClient.stop (c : ReceiverClient) : ReceiverClient :=
  { c with
    connState := .Disconnected
    stopFlag := true
    transportOpen := false
    loopRunning := false }

/-- Modelled from the spec: `kiwisdr_impl::stop` (declared at
`kiwisdr_impl.h:59`, body missing from `src/`) — calls
`ReceiverClient.stop()` and returns `true` unconditionally. -/
def block_stop (c : ReceiverClient) : Bool × ReceiverClient :=
  (true, c.stop)

/-! Helper lemmas. -/

theorem regGet_none {m : Registry} {k : String} (h : m.lookup k = none) :
    regGet m k = .error .MissingKey := by
  simp [regGet, h]

theorem regGet_some {m : Registry} {k v : String} (h : m.lookup k = some v) :
    regGet m k = .ok v := by
  simp [regGet, h]

theorem ok_bind {α β : Type} (v : α) (f : α → Except KiwiError β) :
    (Except.ok v : Except KiwiError α).bind f = f v := rfl

theorem error_bind {α β : Type} (e : KiwiError) (f : α → Except KiwiError β) :
    (Except.error e : Except KiwiError α).bind f = .error e := rfl

theorem bind_missing {α : Type} {m : Registry} {k : String}
    (f : String → Except KiwiError α) (h : m.lookup k = none) :
    (regGet m k).bind f = .error .MissingKey := by
  rw [regGet_none h, error_bind]

theorem bind_present {α : Type} {m : Registry} {k v : String}
    (f : String → Except KiwiError α) (h : m.lookup k = some v) :
    (regGet m k).bind f = f v := by
  rw [regGet_some h, ok_bind]

theorem digit_not_ws {c : Char} (h : c.isDigit = true) :
    c.isWhitespace = false := by
  by_contra hw
  rw [Bool.not_eq_false] at hw
  simp only [Char.isWhitespace, Bool.or_eq_true, decide_eq_true_eq] at hw
  rcases hw with ((rfl | rfl) | rfl) | rfl <;> exact absurd h (by decide)

theorem digit_ne_minus {c : Char} (h : c.isDigit = true) : c ≠ '-' := by
  rintro rfl
  exact absurd h (by decide)

theorem digit_ne_plus {c : Char} (h : c.isDigit = true) : c ≠ '+' := by
  rintro rfl
  exact absurd h (by decide)

theorem takeWhile_all_append {p : Char → Bool} {ds rest : List Char}
    (h1 : ∀ c ∈ ds, p c = true) (h2 : ∀ c ∈ rest.take 1, p c = false) :
    (ds ++ rest).takeWhile p = ds := by
  induction ds with
  | nil =>
    cases rest with
    | nil => rfl
    | cons r t =>
      simp only [List.nil_append, List.takeWhile_cons, h2 r (by simp)]
      simp
  | cons d ds ih =>
    simp only [List.cons_append, List.takeWhile_cons, h1 d (by simp), if_true]
    rw [ih (fun c hc => h1 c (List.mem_cons_of_mem d hc))]

theorem dropWhile_ws_leading {d : Char} {t : List Char} (hd : Char.isDigit d = true) :
    (d :: t).dropWhile Char.isWhitespace = d :: t := by
  rw [List.dropWhile_cons, digit_not_ws hd]
  simp

theorem head_not_minus {d : Char} {t : List Char} (hd : Char.isDigit d = true) :
    ¬ ((d :: t).head? = some '-') := by
  rw [List.head?_cons]
  intro hc
  rw [Option.some_inj] at hc
  exact digit_ne_minus hd hc

theorem numericSpan_mk_leading {d : Char} {ds rest : List Char}
    (h1 : ∀ c ∈ d :: ds, Char.isDigit c = true)
    (h2 : ∀ c ∈ rest.take 1, Char.isDigit c = false) :
    numericSpan (String.mk (d :: ds ++ rest)) = d :: ds := by
  have hd : Char.isDigit d = true := h1 d (by simp)
  have hsign : signSpan (d :: (ds ++ rest)) = d :: (ds ++ rest) := by
    unfold signSpan
    rw [if_neg]
    rintro (hc | hc) <;> rw [List.head?_cons, Option.some_inj] at hc
    · exact digit_ne_minus hd hc
    · exact digit_ne_plus hd hc
  unfold numericSpan
  show (signSpan ((d :: (ds ++ rest)).dropWhile Char.isWhitespace)).takeWhile
      Char.isDigit = d :: ds
  rw [dropWhile_ws_leading hd, hsign]
  exact takeWhile_all_append h1 h2

theorem stoiVal_mk_leading {d : Char} {ds rest : List Char}
    (h1 : ∀ c ∈ d :: ds, Char.isDigit c = true)
    (h2 : ∀ c ∈ rest.take 1, Char.isDigit c = false) :
    stoiVal (String.mk (d :: ds ++ rest)) = (digitsVal (d :: ds) : Int) := by
  have hd : Char.isDigit d = true := h1 d (by simp)
  unfold stoiVal
  rw [numericSpan_mk_leading h1 h2]
  simp only [List.cons_append, dropWhile_ws_leading hd]
  rw [if_neg (head_not_minus hd)]

theorem stoi_mk_leading {d : Char} {ds rest : List Char}
    (h1 : ∀ c ∈ d :: ds, Char.isDigit c = true)
    (h2 : ∀ c ∈ rest.take 1, Char.isDigit c = false)
    (h3 : (digitsVal (d :: ds) : Int) ≤ 2147483647) :
    stoi (String.mk (d :: ds ++ rest)) = .ok (digitsVal (d :: ds) : Int) := by
  have hv : (0 : Int) ≤ (digitsVal (d :: ds) : Int) := Int.natCast_nonneg _
  unfold stoi
  simp only [numericSpan_mk_leading h1 h2, stoiVal_mk_leading h1 h2]
  rw [if_neg (by simp), if_neg (by omega)]

theorem stoi_failure_boundary (s : String) :
    (stoi s = .error .FormatError ↔ numericSpan s = []) ∧
    (stoi s = .error .OutOfRange ↔
      numericSpan s ≠ [] ∧ (stoiVal s < -2147483648 ∨ 2147483647 < stoiVal s)) := by
  unfold stoi
  by_cases he : (numericSpan s).isEmpty
  · rw [if_pos he]
    rw [List.isEmpty_iff] at he
    constructor
    · simp [he]
    · simp [he]
  · rw [if_neg he]
    rw [Bool.not_eq_true, List.isEmpty_eq_false_iff_exists_mem] at he
    have hne : numericSpan s ≠ [] := by
      obtain ⟨x, hx⟩ := he
      intro hnil
      rw [hnil] at hx
      exact List.not_mem_nil x hx
    by_cases hr : stoiVal s < -2147483648 ∨ 2147483647 < stoiVal s
    · rw [if_pos hr]
      constructor
      · simp [hne]
      · simp [hne, hr]
    · rw [if_neg hr]
      constructor
      · simp [hne]
      · simp [hne, hr]

theorem pushAll_cons (cap : Nat) (q : ClientQueue) (x : Int) (xs : List Int) :
    pushAll cap q (x :: xs) = pushAll cap (push_sample cap q x) xs := rfl

theorem pushAll_suffix (cap : Nat) (hcap : 1 ≤ cap) (xs : List Int)
    (q : ClientQueue) :
    ∃ i, (pushAll cap q xs).buf = (q.buf ++ xs).drop i := by
  induction xs generalizing q with
  | nil => exact ⟨0, by simp [pushAll]⟩
  | cons x xs ih =>
    obtain ⟨i, hi⟩ := ih (push_sample cap q x)
    rw [pushAll_cons]
    by_cases hfull : q.buf.length < cap
    · refine ⟨i, ?_⟩
      rw [hi]
      unfold push_sample
      rw [if_pos hfull]
      simp
    · cases hq : q.buf with
      | nil =>
        exfalso
        apply hfull
        rw [hq]
        simpa using hcap
      | cons b t =>
        refine ⟨i + 1, ?_⟩
        rw [hi]
        unfold push_sample
        rw [if_neg hfull, hq]
        show ((t ++ [x]) ++ xs).drop i = ((b :: t) ++ x :: xs).drop (i + 1)
        simp [List.append_assoc, List.drop_succ_cons]

theorem drain_outputs_take (q : ClientQueue) (ns : List Nat) :
    ∃ k, drain q ns = q.buf.take k := by
  induction ns generalizing q with
  | nil => exact ⟨0, rfl⟩
  | cons n ns ih =>
    obtain ⟨k, hk⟩ := ih (produce q n).2
    refine ⟨n + k, ?_⟩
    rw [drain, hk]
    show q.buf.take n ++ (q.buf.drop n).take k = q.buf.take (n + k)
    rw [List.take_add]

/-! Claim theorems. -/

/-- Claim C1: every invocation of the pull operation `produce(output_buffer,
max_items)` copies and returns at most `max_items` samples, and returns 0
when no samples are buffered (the return type has no error alternative, so
an empty result is not an error). -/
theorem C1_produce_bounded (q : ClientQueue) (max_items : Nat) :
    (produce q max_items).1.length ≤ max_items ∧
    (q.buf = [] → (produce q max_items).1.length = 0) := by
  constructor
  · show (q.buf.take max_items).length ≤ max_items
    rw [List.length_take]
    exact min_le_left _ _
  · intro h
    show (q.buf.take max_items).length = 0
    rw [h]
    simp

/-- Witness for C1 at a concrete queue holding one sample and at the empty
queue. -/
theorem C1_produce_bounded_witness :
    (produce { buf := [7], dropped := 0 } 5).1.length ≤ 5 ∧
    (produce emptyQueue 5).1.length = 0 :=
  ⟨(C1_produce_bounded { buf := [7], dropped := 0 } 5).1,
   (C1_produce_bounded emptyQueue 5).2 rfl⟩

/-- Claim C2: each of the twelve status accessors fails with `MissingKey`
when its registry key is absent (as before the handshake has populated it),
and when the key is present with stored value `v` it returns `v` parsed to
the accessor's type — the identity for the string accessors, `std::stoi` for
the int accessors, `std::stod` for the double accessors, comparison with the
source's literal for the bool accessors, and the two-field concatenation for
`get_version` (whose constituent keys are `version_maj` and `version_min`). -/
theorem C2_status_accessors (m : Registry) :
    ((m.lookup "client_public_ip" = none →
        get_client_public_ip m = .error .MissingKey) ∧
      (∀ v, m.lookup "client_public_ip" = some v →
        get_client_public_ip m = .ok v)) ∧
    ((m.lookup "rx_chans" = none → get_rx_chans m = .error .MissingKey) ∧
      (∀ v, m.lookup "rx_chans" = some v → get_rx_chans m = stoi v)) ∧
    ((m.lookup "chan_no_pwd" = none → get_chan_no_pwd m = .error .MissingKey) ∧
      (∀ v, m.lookup "chan_no_pwd" = some v → get_chan_no_pwd m = stoi v)) ∧
    ((m.lookup "badp" = none → is_password_ok m = .error .MissingKey) ∧
      (∀ v, m.lookup "badp" = some v → is_password_ok m = .ok (v == "0"))) ∧
    (((m.lookup "version_maj" = none ∨ m.lookup "version_min" = none) →
        get_version m = .error .MissingKey) ∧
      (∀ a b, m.lookup "version_maj" = some a → m.lookup "version_min" = some b →
        get_version m = .ok (a ++ "." ++ b))) ∧
    ((m.lookup "load_cfg" = none → get_cfg m = .error .MissingKey) ∧
      (∀ v, m.lookup "load_cfg" = some v → get_cfg m = .ok v)) ∧
    ((m.lookup "audio_rate" = none → get_audio_rate m = .error .MissingKey) ∧
      (∀ v, m.lookup "audio_rate" = some v → get_audio_rate m = stod v)) ∧
    ((m.lookup "sample_rate" = none → get_sample_rate m = .error .MissingKey) ∧
      (∀ v, m.lookup "sample_rate" = some v → get_sample_rate m = stod v)) ∧
    ((m.lookup "audio_init" = none →
        is_audio_initialized m = .error .MissingKey) ∧
      (∀ v, m.lookup "audio_init" = some v →
        is_audio_initialized m = .ok (v == "1"))) ∧
    ((m.lookup "center_freq" = none → get_center_freq m = .error .MissingKey) ∧
      (∀ v, m.lookup "center_freq" = some v → get_center_freq m = stod v)) ∧
    ((m.lookup "bandwidth" = none → get_bandwidth m = .error .MissingKey) ∧
      (∀ v, m.lookup "bandwidth" = some v → get_bandwidth m = stod v)) ∧
    ((m.lookup "adc_clk_nom" = none → get_adc_clk_nom m = .error .MissingKey) ∧
      (∀ v, m.lookup "adc_clk_nom" = some v → get_adc_clk_nom m = stod v)) := by
  refine ⟨⟨?_, ?_⟩, ⟨?_, ?_⟩, ⟨?_, ?_⟩, ⟨?_, ?_⟩, ⟨?_, ?_⟩, ⟨?_, ?_⟩,
    ⟨?_, ?_⟩, ⟨?_, ?_⟩, ⟨?_, ?_⟩, ⟨?_, ?_⟩, ⟨?_, ?_⟩, ⟨?_, ?_⟩⟩
  · intro h; exact regGet_none h
  · intro v h; exact regGet_some h
  · intro h; exact bind_missing _ h
  · intro v h; exact bind_present _ h
  · intro h; exact bind_missing _ h
  · intro v h; exact bind_present _ h
  · intro h; exact bind_missing _ h
  · intro v h; exact bind_present _ h
  · rintro (h | h)
    · exact bind_missing _ h
    · cases hmaj : m.lookup "version_maj" with
      | none => exact bind_missing _ hmaj
      | some a =>
        unfold get_version
        rw [bind_present _ hmaj]
        exact bind_missing _ h
  · intro a b ha hb
    unfold get_version
    rw [bind_present _ ha, bind_present _ hb]
  · intro h; exact regGet_none h
  · intro v h; exact regGet_some h
  · intro h; exact bind_missing _ h
  · intro v h; exact bind_present _ h
  · intro h; exact bind_missing _ h
  · intro v h; exact bind_present _ h
  · intro h; exact bind_missing _ h
  · intro v h; exact bind_present _ h
  · intro h; exact bind_missing _ h
  · intro v h; exact bind_present _ h
  · intro h; exact bind_missing _ h
  · intro v h; exact bind_present _ h
  · intro h; exact bind_missing _ h
  · intro v h; exact bind_present _ h

/-- Witness for C2: on the registry holding only `badp="0"`, the badp
accessor parses to `true` and the accessor whose key is absent fails with
`MissingKey`. -/
theorem C2_status_accessors_witness :
    is_password_ok [("badp", "0")] = .ok true ∧
    get_client_public_ip [("badp", "0")] = .error .MissingKey := by
  constructor
  · exact (C2_status_accessors [("badp", "0")]).2.2.2.1.2 "0" rfl
  · exact (C2_status_accessors [("badp", "0")]).1.1 rfl

/-- Counterexample to claim C3 as stated: with `badp="2"` stored, the claim
demands a `FormatError`, but the source's `is_password_ok` is
`_msg.at("badp") == "0"`, which returns `false`. -/
theorem C3_counterexample :
    is_password_ok [("badp", "2")] = .ok false ∧
    is_password_ok [("badp", "2")] ≠ .error .FormatError := by
  refine ⟨rfl, ?_⟩
  intro h
  exact Except.noConfusion h

/-- Claim C3 (amended): with the key `badp` stored with value `v`,
`is_password_ok()` returns `true` exactly when `v` is `"0"` and `false` for
every other stored value (including `"1"`); it never fails with
`FormatError`. -/
theorem C3_badp_equality_no_format_error (m : Registry) (v : String)
    (h : m.lookup "badp" = some v) :
    is_password_ok m = .ok (v == "0") ∧
    is_password_ok m ≠ .error .FormatError := by
  have hv : is_password_ok m = .ok (v == "0") := bind_present _ h
  refine ⟨hv, ?_⟩
  rw [hv]
  intro hc
  exact Except.noConfusion hc

/-- Witness for the amended C3 at `badp="1"`. -/
theorem C3_badp_witness :
    is_password_ok [("badp", "1")] = .ok ("1" == "0") ∧
    is_password_ok [("badp", "1")] ≠ .error .FormatError :=
  C3_badp_equality_no_format_error [("badp", "1")] "1" rfl

/-- Claim C4: for `low_cut_Hz ≥ high_cut_Hz`, `set_rx_parameters` /
`RxParameters.set` fails with `InvalidRange`, the stored triple is unchanged
(`current()` still returns the prior triple), and no command payload is
produced (the error alternative carries none). -/
theorem C4_invalid_range_unchanged (st : RxParams) (freq : ℚ) (low high : Int)
    (h : high ≤ low) :
    (set_rx_parameters st freq low high).1 = st ∧
    current (set_rx_parameters st freq low high).1 = current st ∧
    (set_rx_parameters st freq low high).2 = .error .InvalidRange := by
  have hlt : ¬ low < high := not_lt.mpr h
  unfold set_rx_parameters RxParameters.set
  rw [if_neg hlt]
  exact ⟨rfl, rfl, rfl⟩

/-- Witness for C4 at an equal-edge passband request against a concrete
prior state. -/
theorem C4_invalid_range_witness :
    (set_rx_parameters { freq_kHz := 14100, low_cut_Hz := -6000, high_cut_Hz := 6000 } 7040 100 100).1 = { freq_kHz := 14100, low_cut_Hz := -6000, high_cut_Hz := 6000 } ∧
    current (set_rx_parameters { freq_kHz := 14100, low_cut_Hz := -6000, high_cut_Hz := 6000 } 7040 100 100).1 = current { freq_kHz := 14100, low_cut_Hz := -6000, high_cut_Hz := 6000 } ∧
    (set_rx_parameters { freq_kHz := 14100, low_cut_Hz := -6000, high_cut_Hz := 6000 } 7040 100 100).2 = .error .InvalidRange :=
  C4_invalid_range_unchanged { freq_kHz := 14100, low_cut_Hz := -6000, high_cut_Hz := 6000 } 7040 100 100 (by decide)

/-- Claim C5: for `low_cut_Hz < high_cut_Hz`, `set_rx_parameters` followed by
`current()` reads back exactly the triple that was set. -/
theorem C5_roundtrip (st : RxParams) (freq : ℚ) (low high : Int)
    (h : low < high) :
    current (set_rx_parameters st freq low high).1 = (freq, low, high) := by
  unfold set_rx_parameters RxParameters.set
  rw [if_pos h]
  rfl

/-- Witness for C5 at a concrete valid triple. -/
theorem C5_roundtrip_witness :
    current (set_rx_parameters { freq_kHz := 14100, low_cut_Hz := -6000, high_cut_Hz := 6000 } 7040 (-100) 2900).1 = (7040, -100, 2900) :=
  C5_roundtrip { freq_kHz := 14100, low_cut_Hz := -6000, high_cut_Hz := 6000 } 7040 (-100) 2900 (by decide)

/-- Claim C6: `get_version()` concatenates the registry values of
`version_maj` and `version_min` with the separator `"."`, and fails with
`MissingKey` when either key is absent (in particular when `version_maj`
is missing). -/
theorem C6_version_concat (m : Registry) :
    (∀ a b, m.lookup "version_maj" = some a → m.lookup "version_min" = some b →
      get_version m = .ok (a ++ "." ++ b)) ∧
    ((m.lookup "version_maj" = none ∨ m.lookup "version_min" = none) →
      get_version m = .error .MissingKey) := by
  constructor
  · intro a b ha hb
    unfold get_version
    rw [bind_present _ ha, bind_present _ hb]
  · rintro (h | h)
    · exact bind_missing _ h
    · cases hmaj : m.lookup "version_maj" with
      | none => exact bind_missing _ hmaj
      | some a =>
        unfold get_version
        rw [bind_present _ hmaj]
        exact bind_missing _ h

/-- Witness for C6: both fields present concatenate to `"1.550"`; with
`version_maj` absent the accessor fails with `MissingKey`. -/
theorem C6_version_concat_witness :
    get_version [("version_maj", "1"), ("version_min", "550")] = .ok "1.550" ∧
    get_version [("version_min", "550")] = .error .MissingKey := by
  constructor
  · exact (C6_version_concat [("version_maj", "1"), ("version_min", "550")]).1
      "1" "550" rfl rfl
  · exact (C6_version_concat [("version_min", "550")]).2 (Or.inl rfl)

/-- Claim C7: across any sequence of `produce` calls on the queue filled by
the receive loop (capacity at least one), the delivered samples are a
contiguous, in-order segment of the enqueued sample sequence: nothing is
duplicated or reordered, and samples can be lost only from the oldest end
(the drop-oldest backpressure policy, the `drop i`). -/
theorem C7_fifo_drain (cap : Nat) (hcap : 1 ≤ cap) (xs : List Int)
    (ns : List Nat) :
    ∃ i k, drain (pushAll cap emptyQueue xs) ns = (xs.drop i).take k := by
  obtain ⟨i, hi⟩ := pushAll_suffix cap hcap xs emptyQueue
  obtain ⟨k, hk⟩ := drain_outputs_take (pushAll cap emptyQueue xs) ns
  refine ⟨i, k, ?_⟩
  rw [hk, hi]
  show ((List.nil ++ xs).drop i).take k = (xs.drop i).take k
  rw [List.nil_append]

/-- Witness for C7: capacity 1, samples 5 then 6 enqueued (5 is dropped as
oldest), one `produce` call of size 2 delivers exactly `[6]`. -/
theorem C7_fifo_drain_witness :
    drain (pushAll 1 emptyQueue [5, 6]) [2] = [6] ∧
    (∃ i k, drain (pushAll 1 emptyQueue [5, 6]) [2]
      = (([5, 6] : List Int).drop i).take k) :=
  ⟨rfl, C7_fifo_drain 1 (by decide) [5, 6] [2]⟩

/-- Claim C8: with the registry key `sample_rate` storing the string
`"12000.0"`, `get_sample_rate()` returns exactly 12000 (the decimal literal
is parsed to its exact value; 12000 is an integer below 2^53, hence also
exactly representable as a C++ double). -/
theorem C8_sample_rate_exact :
    get_sample_rate [("sample_rate", "12000.0")] = .ok 12000 := by
  have h : get_sample_rate [("sample_rate", "12000.0")]
      = .ok (((12000 : ℕ) : ℚ) + ((0 : ℕ) : ℚ) / (10 : ℚ) ^ (1 : ℕ)) := rfl
  rw [h]
  norm_num

/-- Claim C9: `StreamingBlock.stop()` returns `true` unconditionally, and
`ReceiverClient.stop()` is idempotent: stopping an already stopped client
leaves its state unchanged, so `stop(); stop()` has the same effect as
`stop()`. -/
theorem C9_stop_idempotent (c : ReceiverClient) :
    (block_stop c).1 = true ∧
    ReceiverClient.stop (block_stop c).2 = (block_stop c).2 ∧
    (block_stop (block_stop c).2).2 = (block_stop c).2 :=
  ⟨rfl, rfl, rfl⟩

/-- Counterexample to claim C10 as stated: the stored value `"9999999999"`
has a parsable numeric prefix (its digit run is nonempty), yet
`get_rx_chans` fails — `std::stoi` throws `std::out_of_range` because
9999999999 exceeds `INT_MAX` — so it is not true that only a string with no
parsable numeric prefix causes a failure. -/
theorem C10_overflow_counterexample :
    numericSpan "9999999999" ≠ [] ∧
    get_rx_chans [("rx_chans", "9999999999")] = .error .OutOfRange := by
  constructor
  · decide
  · rfl

/-- Claim C10 (amended): the `std::stoi`-based accessors `get_rx_chans` and
`get_chan_no_pwd` parse the longest leading digit run of the stored string,
ignoring trailing non-numeric characters, and return that leading integer
provided it fits in `int`'s range (e.g. `"4abc"` parses to 4); they fail
exactly when the stored string has no parsable numeric prefix
(`std::invalid_argument`, the spec's `FormatError`) or the numeric prefix's
value overflows `int`'s range (`std::out_of_range`). -/
theorem C10_stoi_leading_digits (m : Registry) (d : Char)
    (ds rest : List Char)
    (h1 : ∀ c ∈ d :: ds, Char.isDigit c = true)
    (h2 : ∀ c ∈ rest.take 1, Char.isDigit c = false)
    (h3 : (digitsVal (d :: ds) : Int) ≤ 2147483647) :
    (m.lookup "rx_chans" = some (String.mk (d :: ds ++ rest)) →
      get_rx_chans m = .ok (digitsVal (d :: ds) : Int)) ∧
    (m.lookup "chan_no_pwd" = some (String.mk (d :: ds ++ rest)) →
      get_chan_no_pwd m = .ok (digitsVal (d :: ds) : Int)) ∧
    (∀ s, m.lookup "rx_chans" = some s →
      (get_rx_chans m = .error .FormatError ↔ numericSpan s = []) ∧
      (get_rx_chans m = .error .OutOfRange ↔
        numericSpan s ≠ [] ∧
          (stoiVal s < -2147483648 ∨ 2147483647 < stoiVal s))) := by
  refine ⟨?_, ?_, ?_⟩
  · intro h
    unfold get_rx_chans
    rw [bind_present _ h]
    exact stoi_mk_leading h1 h2 h3
  · intro h
    unfold get_chan_no_pwd
    rw [bind_present _ h]
    exact stoi_mk_leading h1 h2 h3
  · intro s h
    unfold get_rx_chans
    rw [bind_present _ h]
    exact stoi_failure_boundary s

/-- Witness for C10 at the stored value `"4abc"`: the leading digit `4` is
in range and is returned; the parse does not fail. -/
theorem C10_stoi_leading_digits_witness :
    get_rx_chans [("rx_chans", "4abc")] = .ok 4 :=
  (C10_stoi_leading_digits [("rx_chans", "4abc")] '4' [] ['a', 'b', 'c']
    (by decide) (by decide) (by decide)).1 rfl

end GrKiwisdr
